import Mathlib

/-!
Shallow embedding of the homework status bot (`homework.py` together with its
exception hierarchy from `exceptions.py`).

Python values appearing in decoded API responses are modelled by `PyVal`;
Python exceptions relevant to the bot by `PyError`.  Functions that may raise
return `Except PyError _`.  The external world of one poll-loop iteration
(HTTP outcome, Telegram delivery outcome, wall clock) is packaged in
`CycleEnv`; `runCycle` is the body of the `while True:` loop in `main`, and
`runCycles` iterates it over a finite prefix of cycle environments, stopping
early when an exception escapes the loop body.
-/

/-- Decoded JSON / Python values as they occur in API responses. -/
inductive PyVal where
  | pynone
  | str (s : String)
  | int (n : Int)
  | list (elems : List PyVal)
  | dict (entries : List (String × PyVal))

mutual

/-- Python structural equality (`==`) on decoded values.  Dict comparison is
entry-list based; the bot only ever compares scalar values drawn from the
same response shapes, where this coincides with Python dict equality. -/
def PyVal.beq : PyVal → PyVal → Bool
  | .pynone, .pynone => true
  | .str a, .str b => a == b
  | .int a, .int b => a == b
  | .list xs, .list ys => PyVal.beqList xs ys
  | .dict xs, .dict ys => PyVal.beqEntries xs ys
  | _, _ => false

def PyVal.beqList : List PyVal → List PyVal → Bool
  | [], [] => true
  | x :: xs, y :: ys => PyVal.beq x y && PyVal.beqList xs ys
  | _, _ => false

def PyVal.beqEntries : List (String × PyVal) → List (String × PyVal) → Bool
  | [], [] => true
  | (k1, v1) :: xs, (k2, v2) :: ys => k1 == k2 && PyVal.beq v1 v2 && PyVal.beqEntries xs ys
  | _, _ => false

end

/-- Exceptions the bot raises or catches.  `keyError`, `typeError` and
`valueError` are the Python builtins; the rest mirror `exceptions.py` plus
the two library-raised failures wrapped inside `get_api_answer`. -/
inductive PyError where
  | keyError (msg : String)
  | typeError (msg : String)
  | valueError
  | emptyAPIResponseError (msg : String)
  | telegramError (msg : String)
  | connectionError (msg : String)
  | wrongAPIResponseCodeError (msg : String)
  | requestException (msg : String)
  | jsonDecodeError (msg : String)
deriving DecidableEq, Repr

/-- The `NotForSendingError` base class of `exceptions.py`:
`EmptyAPIResponseError` and `TelegramError` derive from it, nothing else. -/
def PyError.isNotForSending : PyError → Bool
  | .emptyAPIResponseError _ => true
  | .telegramError _ => true
  | _ => false

/-- Python `str(e)`: the message, except that `str` of a `KeyError` wraps the
missing key in single quotes. -/
def PyError.errStr : PyError → String
  | .keyError m => "\x27" ++ m ++ "\x27"
  | .typeError m => m
  | .valueError => ""
  | .emptyAPIResponseError m => m
  | .telegramError m => m
  | .connectionError m => m
  | .wrongAPIResponseCodeError m => m
  | .requestException m => m
  | .jsonDecodeError m => m

/-- Python dict lookup `d.get(k)` on a decoded object (first matching key). -/
def dictGet? (d : List (String × PyVal)) (k : String) : Option PyVal :=
  match d.find? (fun p => p.1 == k) with
  | some p => some p.2
  | Option.none => Option.none

/-- Python `str(v)` as used by the f-string in `parse_status`.  Containers
never reach that f-string in the scenarios the claims quantify over, so their
rendering is abstracted by placeholders. -/
def pyStr : PyVal → String
  | .str s => s
  | .int n => toString n
  | .pynone => "None"
  | .list _ => "<list>"
  | .dict _ => "<dict>"

/-- The constant `HOMEWORK_STATUSES` dictionary of `homework.py`. -/
def HOMEWORK_STATUSES : List (String × String) :=
  [("approved", "Работа проверена: ревьюеру всё понравилось. Ура!"),
   ("reviewing", "Работа взята на проверку ревьюером."),
   ("rejected", "Работа проверена: у ревьюера есть замечания.")]

/-- Key lookup in `HOMEWORK_STATUSES`. -/
def statusLookup (s : String) : Option String :=
  match HOMEWORK_STATUSES.find? (fun p => p.1 == s) with
  | some p => some p.2
  | Option.none => Option.none

/-- Membership test `v in HOMEWORK_STATUSES` followed by indexing: a dict
with string keys contains `v` exactly when `v` is one of those strings. -/
def statusVerdict : PyVal → Option String
  | .str s => statusLookup s
  | _ => Option.none

/-- The notification text built by the f-string in `parse_status`. -/
def statusMessage (name verdict : String) : String :=
  "Изменился статус проверки работы \"" ++ name ++ "\". " ++ verdict

/-- Embedding of `parse_status(homework)`.  The argument is the decoded
record (a dict); the two `not in` guards raise `KeyError` with the messages
from the source, an unknown status raises a bare `ValueError`. -/
def parse_status (homework : List (String × PyVal)) : Except PyError String :=
  match dictGet? homework "homework_name" with
  | Option.none => .error (.keyError "Отсутствует ключ \"homework_name\" в ответе API")
  | some nameVal =>
    match dictGet? homework "status" with
    | Option.none => .error (.keyError "Отсутствует ключ \"status\" в ответе API")
    | some statusVal =>
      match statusVerdict statusVal with
      | Option.none => .error .valueError
      | some verdict => .ok (statusMessage (pyStr nameVal) verdict)

/-- Embedding of `check_response(response)`: dict check (`TypeError`), key
presence check (`EmptyAPIResponseError`), list check on `homeworks`
(`KeyError`), then the homeworks list is returned. -/
def check_response (response : PyVal) : Except PyError (List PyVal) :=
  match response with
  | .dict d =>
    if (dictGet? d "homeworks").isNone || (dictGet? d "current_date").isNone then
      .error (.emptyAPIResponseError "Ключей нет в списке")
    else
      match dictGet? d "homeworks" with
      | some (.list hs) => .ok hs
      | some _ => .error (.keyError "Тип homeworks - не список")
      | Option.none => .error (.keyError "Тип homeworks - не список")
  | _ => .error (.typeError "В ответе нет словаря")

/-- What the HTTP layer does on one `requests.get` call: the call itself may
raise, or it yields a status code and a body whose JSON decoding may fail. -/
inductive FetchOutcome where
  | transportError (msg : String)
  | httpResponse (statusCode : Nat) (body : Except String PyVal)

/-- The timestamp actually sent as `from_date`:
`timestamp = current_timestamp or int(time.time())` — a falsy argument
(`None` or `0`) is replaced by the wall clock. -/
def fromDate (current_timestamp : Option Int) (now : Int) : Int :=
  match current_timestamp with
  | Option.none => now
  | some t => if t = 0 then now else t

/-- Embedding of `get_api_answer(current_timestamp)`.  Returns the `from_date`
query parameter sent together with the result.  Inside the `try` block a
non-200 code raises `WrongAPIResponseCodeError` and a bad body raises the
JSON decode error; the blanket `except Exception` re-raises everything as
`ConnectionError` with the original `str(e)` appended. -/
def get_api_answer (current_timestamp : Option Int) (now : Int)
    (outcome : FetchOutcome) : Int × Except PyError PyVal :=
  (fromDate current_timestamp now,
    let inner : Except PyError PyVal :=
      match outcome with
      | .transportError m => .error (.requestException m)
      | .httpResponse code body =>
        if code ≠ 200 then
          .error (.wrongAPIResponseCodeError ("Ошибка " ++ toString code))
        else
          match body with
          | .ok v => .ok v
          | .error m => .error (.jsonDecodeError m)
    match inner with
    | .ok v => .ok v
    | .error e => .error (.connectionError ("Недоступность эндпоинта " ++ e.errStr)))

/-- Embedding of `send_message(bot, message)`: the Telegram call either
succeeds or raises; a raise is wrapped into `TelegramError`. -/
def send_message (delivery : Option String) (message : String) : Except PyError Unit :=
  match delivery with
  | Option.none => .ok ()
  | some err => .error (.telegramError ("Сообщение не отправлено, ошибка: " ++ err))

/-- Python truthiness of an optional environment string: `None` and the
empty string are falsy. -/
def truthy : Option String → Bool
  | Option.none => false
  | some s => !(s == "")

/-- Embedding of `check_tokens()` over the three environment secrets
(`None` when the variable is unset): `all([...])` is false exactly when one
of them is falsy (missing or the empty string). -/
def check_tokens (practicumToken telegramToken telegramChatId : Option String) : Bool :=
  truthy practicumToken && truthy telegramToken && truthy telegramChatId

/-- The `current_report` / `prev_report` dicts of `main`: fixed keys `name`
(raw value copied from the response) and `output` (always a string). -/
structure Report where
  name : PyVal
  output : String

/-- Python `==` on the two report dicts. -/
def reportEq (a b : Report) : Bool :=
  PyVal.beq a.name b.name && a.output == b.output

/-- The mutable state of `main` across loop iterations. -/
structure BotState where
  timestamp : Int
  current : Report
  prev : Report

/-- External events of one loop iteration: wall clock, HTTP outcome, and the
Telegram delivery outcome (`none` = delivered, `some e` = the call raised). -/
structure CycleEnv where
  now : Int
  fetch : FetchOutcome
  delivery : Option String

/-- Observable result of one loop iteration: the new state, the messages
passed to `bot.send_message` (attempts), those actually delivered, and the
exception escaping the loop body, if any (which kills the process). -/
structure CycleResult where
  state : BotState
  attempts : List String
  sent : List String
  crashed : Option PyError

/-- The `except` chain of `main`.  `cur` is `current_report` as already
mutated inside the `try` block.  A `NotForSendingError` is only logged; any
other exception becomes the report `Ошибка у бота ...`, sent when it differs
from `prev_report`; a Telegram raise inside this handler escapes `main`. -/
def handleError (st : BotState) (cur : Report) (env : CycleEnv) (e : PyError) : CycleResult :=
  if e.isNotForSending then
    { state := { st with current := cur }, attempts := [], sent := [], crashed := Option.none }
  else
    let msg := "Ошибка у бота " ++ e.errStr
    let cur2 : Report := { cur with output := msg }
    if reportEq cur2 st.prev then
      { state := { st with current := cur2 }, attempts := [], sent := [], crashed := Option.none }
    else
      match send_message env.delivery msg with
      | .ok _ =>
        { state := { st with current := cur2, prev := cur2 },
          attempts := [msg], sent := [msg], crashed := Option.none }
      | .error te =>
        { state := { st with current := cur2 },
          attempts := [msg], sent := [], crashed := some te }

/-- The notify step of the `try` block: send when `current_report` differs
from `prev_report`, committing `prev_report` only on a successful send; the
`TelegramError` of a failed send is a `NotForSendingError`, hence only
logged. -/
def notifyPhase (st : BotState) (cur : Report) (env : CycleEnv) : CycleResult :=
  if reportEq cur st.prev then
    { state := { st with current := cur }, attempts := [], sent := [], crashed := Option.none }
  else
    match send_message env.delivery cur.output with
    | .ok _ =>
      { state := { st with current := cur, prev := cur },
        attempts := [cur.output], sent := [cur.output], crashed := Option.none }
    | .error _ =>
      { state := { st with current := cur },
        attempts := [cur.output], sent := [], crashed := Option.none }

/-- One iteration of the `while True:` loop of `main`: fetch, validate, build
the pending report (the subscript `homework[...]` raising `KeyError` on a
missing key and `TypeError` on a non-dict first element), then notify; all
raises are routed through the `except` chain. -/
def runCycle (st : BotState) (env : CycleEnv) : CycleResult :=
  match (get_api_answer (some st.timestamp) env.now env.fetch).2 with
  | .error e => handleError st st.current env e
  | .ok response =>
    match check_response response with
    | .error e => handleError st st.current env e
    | .ok homeworks =>
      match homeworks with
      | [] => notifyPhase st { st.current with output := "домашних работ нет." } env
      | hw :: _ =>
        match hw with
        | .dict d =>
          match dictGet? d "homework_name" with
          | Option.none => handleError st st.current env (.keyError "homework_name")
          | some nameVal =>
            let cur1 : Report := { st.current with name := nameVal }
            match parse_status d with
            | .error e => handleError st cur1 env e
            | .ok text => notifyPhase st { cur1 with output := text } env
        | _ => handleError st st.current env (.typeError "элемент homeworks - не словарь")

/-- Accumulated observations of a finite run of the poll loop.  `fromDates`
records, per executed cycle, the `from_date` query parameter its fetch sent. -/
structure RunResult where
  state : BotState
  attempts : List String
  sent : List String
  fetches : Nat
  fromDates : List Int
  crashed : Option PyError

/-- Iterate `runCycle` over a finite prefix of environments; an exception
escaping one iteration terminates the process, so later environments are
never consumed. -/
def runCycles (st : BotState) : List CycleEnv → RunResult
  | [] =>
    { state := st, attempts := [], sent := [], fetches := 0, fromDates := [],
      crashed := Option.none }
  | env :: envs =>
    let r := runCycle st env
    let fd := (get_api_answer (some st.timestamp) env.now env.fetch).1
    match r.crashed with
    | some e =>
      { state := r.state, attempts := r.attempts, sent := r.sent, fetches := 1,
        fromDates := [fd], crashed := some e }
    | Option.none =>
      let rest := runCycles r.state envs
      { state := rest.state, attempts := r.attempts ++ rest.attempts,
        sent := r.sent ++ rest.sent, fetches := 1 + rest.fetches,
        fromDates := fd :: rest.fromDates, crashed := rest.crashed }

/-- The report both dicts of `main` start from. -/
def initialReport : Report := { name := .str "", output := "" }

/-- The state of `main` just before the loop: `current_timestamp` is the
wall clock at startup, both reports are the empty sentinel. -/
def initialState (startTime : Int) : BotState :=
  { timestamp := startTime, current := initialReport, prev := initialReport }

/-- Observable outcome of `main`: either `sys.exit` before the loop, or the
run of the loop itself. -/
inductive MainResult where
  | exited (msg : String)
  | looped (r : RunResult)

/-- Embedding of `main()`: the startup guard exits before the bot or the
loop exist; otherwise the loop runs from `initialState`. -/
def mainRun (p t c : Option String) (startTime : Int) (envs : List CycleEnv) : MainResult :=
  if !(check_tokens p t c) then .exited "Отсутствуют переменные окружения!"
  else .looped (runCycles (initialState startTime) envs)

/-- Number of `requests.get` calls a `mainRun` performed. -/
def mainFetches : MainResult → Nat
  | .exited _ => 0
  | .looped r => r.fetches

/-- Messages a `mainRun` passed to `bot.send_message`. -/
def mainAttempts : MainResult → List String
  | .exited _ => []
  | .looped r => r.attempts

/-- A decoded homework record carrying both required keys. -/
def hwRecord (name status : String) : List (String × PyVal) :=
  [("homework_name", .str name), ("status", .str status)]

/-- A well-formed API response carrying exactly one homework record. -/
def goodResponse (name status : String) (currentDate : Int) : PyVal :=
  .dict [("homeworks", .list [.dict (hwRecord name status)]),
         ("current_date", .int currentDate)]

/-- A cycle whose fetch succeeds with `goodResponse`. -/
def goodEnv (name status : String) (currentDate now : Int) (delivery : Option String) : CycleEnv :=
  { now := now, fetch := .httpResponse 200 (.ok (goodResponse name status currentDate)),
    delivery := delivery }

/-- The pending report `main` builds from a fresh `goodResponse` record. -/
def goodReport (name verdict : String) : Report :=
  { name := .str name, output := statusMessage name verdict }

/-- Tests whether the result of `get_api_answer` is a success or a
`ConnectionError`; every other escaping exception kind would make it false. -/
def escapesAsConnection : Except PyError PyVal → Bool
  | .ok _ => true
  | .error (.connectionError _) => true
  | .error _ => false

/-- Python `isinstance(v, list)`. -/
def isListVal : PyVal → Bool
  | .list _ => true
  | _ => false

/-- A response whose `homeworks` value is present but not a sequence. -/
def badTypeResponse : PyVal :=
  .dict [("homeworks", .int 1), ("current_date", .int 2)]

/-! Helper lemmas about the loop body. -/

lemma statusMessage_ne_empty (name verdict : String) : statusMessage name verdict ≠ "" := by
  intro h
  have h2 := congrArg String.length h
  simp [statusMessage, String.length_append] at h2
  exact absurd h2.1.1.1 (by decide)

lemma statusMessage_beq_empty (name verdict : String) :
    (statusMessage name verdict == "") = false := by
  simp [statusMessage_ne_empty]

lemma runCycle_goodEnv (st : BotState) (name status verdict : String)
    (d now : Int) (delivery : Option String)
    (h : statusLookup status = some verdict) :
    runCycle st (goodEnv name status d now delivery) =
      notifyPhase st (goodReport name verdict) (goodEnv name status d now delivery) := by
  simp [runCycle, goodEnv, goodResponse, hwRecord, get_api_answer, check_response,
        dictGet?, parse_status, statusVerdict, pyStr, h, List.find?, fromDate, goodReport]

lemma notifyPhase_same (st : BotState) (cur : Report) (env : CycleEnv)
    (h : reportEq cur st.prev = true) :
    notifyPhase st cur env =
      { state := { st with current := cur }, attempts := [], sent := [],
        crashed := Option.none } := by
  simp [notifyPhase, h]

lemma notifyPhase_new_delivered (st : BotState) (cur : Report) (env : CycleEnv)
    (h : reportEq cur st.prev = false) (hd : env.delivery = Option.none) :
    notifyPhase st cur env =
      { state := { st with current := cur, prev := cur }, attempts := [cur.output],
        sent := [cur.output], crashed := Option.none } := by
  simp [notifyPhase, h, send_message, hd]

lemma notifyPhase_new_failed (st : BotState) (cur : Report) (env : CycleEnv) (err : String)
    (h : reportEq cur st.prev = false) (hd : env.delivery = some err) :
    notifyPhase st cur env =
      { state := { st with current := cur }, attempts := [cur.output], sent := [],
        crashed := Option.none } := by
  simp [notifyPhase, h, send_message, hd]

lemma reportEq_goodReport_self (name verdict : String) :
    reportEq (goodReport name verdict) (goodReport name verdict) = true := by
  simp [reportEq, goodReport, PyVal.beq]

lemma reportEq_goodReport_initial (name verdict : String) :
    reportEq (goodReport name verdict) initialReport = false := by
  simp [reportEq, goodReport, initialReport, statusMessage_beq_empty]

lemma runCycle_steady (name status verdict : String) (d now : Int)
    (delivery : Option String) (h : statusLookup status = some verdict) (ts : Int) :
    runCycle ⟨ts, goodReport name verdict, goodReport name verdict⟩
        (goodEnv name status d now delivery) =
      { state := ⟨ts, goodReport name verdict, goodReport name verdict⟩,
        attempts := [], sent := [], crashed := Option.none } := by
  rw [runCycle_goodEnv _ name status verdict d now delivery h]
  rw [notifyPhase_same _ (goodReport name verdict) (goodEnv name status d now delivery)
        (reportEq_goodReport_self name verdict)]

lemma runCycles_steady (name status verdict : String) (d now : Int)
    (delivery : Option String) (h : statusLookup status = some verdict) :
    ∀ (k : Nat) (ts : Int),
      runCycles ⟨ts, goodReport name verdict, goodReport name verdict⟩
          (List.replicate k (goodEnv name status d now delivery)) =
        { state := ⟨ts, goodReport name verdict, goodReport name verdict⟩,
          attempts := [], sent := [], fetches := k,
          fromDates := List.replicate k (fromDate (some ts) now),
          crashed := Option.none } := by
  intro k
  induction k with
  | zero => intro ts; simp [runCycles]
  | succ n ih =>
    intro ts
    rw [List.replicate_succ]
    simp only [runCycles, runCycle_steady name status verdict d now delivery h ts, ih ts]
    simp [get_api_answer, goodEnv, List.replicate_succ]
    omega

lemma runCycle_first (st : BotState) (name status verdict : String) (d now : Int)
    (h : statusLookup status = some verdict)
    (hne : reportEq (goodReport name verdict) st.prev = false) :
    runCycle st (goodEnv name status d now Option.none) =
      { state := { st with current := goodReport name verdict, prev := goodReport name verdict },
        attempts := [statusMessage name verdict], sent := [statusMessage name verdict],
        crashed := Option.none } := by
  rw [runCycle_goodEnv st name status verdict d now Option.none h]
  rw [notifyPhase_new_delivered st (goodReport name verdict)
        (goodEnv name status d now Option.none) hne rfl]
  rfl

lemma handleError_timestamp (st : BotState) (cur : Report) (env : CycleEnv) (e : PyError) :
    (handleError st cur env e).state.timestamp = st.timestamp := by
  unfold handleError
  dsimp only
  split
  · rfl
  · split
    · rfl
    · split <;> rfl

lemma notifyPhase_timestamp (st : BotState) (cur : Report) (env : CycleEnv) :
    (notifyPhase st cur env).state.timestamp = st.timestamp := by
  unfold notifyPhase
  split
  · rfl
  · split <;> rfl

lemma runCycle_timestamp (st : BotState) (env : CycleEnv) :
    (runCycle st env).state.timestamp = st.timestamp := by
  unfold runCycle
  repeat' split
  all_goals first
    | apply handleError_timestamp
    | apply notifyPhase_timestamp

/-! Claim theorems. -/

/-- Claim C1: over any run of consecutive poll cycles that all fetch the same
single homework record successfully, exactly one notification is sent — on
the first cycle — and every later identical cycle sends nothing, because the
pending report then equals the last-notified pair.  Stated for an arbitrary
start state whose last-notified pair differs from the record's report, and in
particular for the loop's initial state. -/
theorem c1_identical_polls_notify_once (name status verdict : String)
    (d now : Int) (k : Nat) (h : statusLookup status = some verdict) :
    (∀ st : BotState, reportEq (goodReport name verdict) st.prev = false →
        (runCycles st (List.replicate (k + 1) (goodEnv name status d now Option.none))).sent
            = [statusMessage name verdict] ∧
        (runCycles st (List.replicate (k + 1) (goodEnv name status d now Option.none))).attempts
            = [statusMessage name verdict]) ∧
    (∀ t0 : Int,
        (runCycles (initialState t0)
            (List.replicate (k + 1) (goodEnv name status d now Option.none))).sent
          = [statusMessage name verdict]) := by
  have main : ∀ st : BotState, reportEq (goodReport name verdict) st.prev = false →
      (runCycles st (List.replicate (k + 1) (goodEnv name status d now Option.none))).sent
          = [statusMessage name verdict] ∧
      (runCycles st (List.replicate (k + 1) (goodEnv name status d now Option.none))).attempts
          = [statusMessage name verdict] := by
    intro st hne
    rw [List.replicate_succ]
    simp only [runCycles, runCycle_first st name status verdict d now h hne]
    simp only [runCycles_steady name status verdict d now Option.none h k st.timestamp]
    simp
  exact ⟨main, fun t0 => (main (initialState t0) (reportEq_goodReport_initial name verdict)).1⟩

/-- Witness for C1 at concrete inputs: three identical successful polls from
the initial state deliver exactly one message. -/
theorem c1_witness :
    (runCycles (initialState 100)
        (List.replicate 3 (goodEnv "hw1" "approved" 999 7 Option.none))).sent
      = [statusMessage "hw1" "Работа проверена: ревьюеру всё понравилось. Ура!"] :=
  (c1_identical_polls_notify_once "hw1" "approved"
      "Работа проверена: ревьюеру всё понравилось. Ура!" 999 7 2 rfl).2 100

/-- Claim C2 (code bug): `main` never updates `current_timestamp`, so after a
cycle whose notify succeeded the next fetch still sends the process start
time (100), not the server's `current_date` (999): both fetches of the run
send `from_date = 100`.  `check_response` demands the `current_date` key yet
its value is never consumed. -/
theorem c2_from_date_never_advances :
    (runCycles (initialState 100)
        [goodEnv "hw1" "approved" 999 7 Option.none,
         goodEnv "hw1" "approved" 999 7 Option.none]).sent.length = 1 ∧
    (runCycles (initialState 100)
        [goodEnv "hw1" "approved" 999 7 Option.none,
         goodEnv "hw1" "approved" 999 7 Option.none]).fromDates = [100, 100] ∧
    (100 : Int) ≠ 999 := by
  refine ⟨rfl, rfl, by decide⟩

/-- Counterexample to claim C3: in a cycle where `get_api_answer` raises
(transport failure), `send_message` IS called — `ConnectionError` is not a
`NotForSendingError`, so the generic handler reports it to the channel. -/
theorem c3_counterexample :
    (runCycle (initialState 100)
        { now := 5, fetch := .transportError "boom", delivery := Option.none }).attempts
      = ["Ошибка у бота Недоступность эндпоинта boom"] ∧
    (runCycle (initialState 100)
        { now := 5, fetch := .transportError "boom", delivery := Option.none }).sent
      = ["Ошибка у бота Недоступность эндпоинта boom"] := ⟨rfl, rfl⟩

/-- Claim C3 as amended: a missing-keys response is suppressed without any
send, while a connection/transport failure is escalated to the user channel
(one message, when its text differs from the last report). -/
theorem c3_missing_keys_suppressed_connection_reported (st : BotState) (env : CycleEnv) :
    (∀ v m, env.fetch = .httpResponse 200 (.ok v) →
        check_response v = .error (.emptyAPIResponseError m) →
        (runCycle st env).attempts = [] ∧ (runCycle st env).state.prev = st.prev) ∧
    (∀ m, env.fetch = .transportError m → env.delivery = Option.none →
        reportEq { st.current with
            output := "Ошибка у бота " ++ ("Недоступность эндпоинта " ++ m) } st.prev = false →
        (runCycle st env).sent = ["Ошибка у бота " ++ ("Недоступность эндпоинта " ++ m)]) := by
  constructor
  · intro v m hf hc
    constructor <;>
      simp [runCycle, get_api_answer, hf, hc, handleError, PyError.isNotForSending]
  · intro m hf hd hne
    simp [runCycle, get_api_answer, hf, handleError, PyError.isNotForSending, PyError.errStr,
          hne, send_message, hd]

/-- Witness for C3 (amended) at concrete inputs. -/
theorem c3_witness :
    (runCycle (initialState 100)
        { now := 5, fetch := .httpResponse 200 (.ok (.dict [])), delivery := Option.none }).attempts
      = [] ∧
    (runCycle (initialState 50)
        { now := 5, fetch := .transportError "boom", delivery := Option.none }).sent
      = ["Ошибка у бота " ++ ("Недоступность эндпоинта " ++ "boom")] :=
  ⟨((c3_missing_keys_suppressed_connection_reported (initialState 100)
        { now := 5, fetch := .httpResponse 200 (.ok (.dict [])), delivery := Option.none }).1
      (.dict []) "Ключей нет в списке" rfl rfl).1,
   (c3_missing_keys_suppressed_connection_reported (initialState 50)
        { now := 5, fetch := .transportError "boom", delivery := Option.none }).2
      "boom" rfl rfl (by decide)⟩

/-- Claim C4: `parse_status` returns exactly the formatted status-change
string for a record with both keys and a known status (with the concrete
`approved` example), raises a missing-field `KeyError` when either key is
absent, and a `ValueError` when the status is outside the enum. -/
theorem c4_parse_status_contract :
    (∀ name status verdict, statusLookup status = some verdict →
        parse_status (hwRecord name status) = .ok (statusMessage name verdict)) ∧
    parse_status (hwRecord "hw1" "approved") =
      .ok "Изменился статус проверки работы \"hw1\". Работа проверена: ревьюеру всё понравилось. Ура!" ∧
    (∀ d, dictGet? d "homework_name" = Option.none →
        parse_status d = .error (.keyError "Отсутствует ключ \"homework_name\" в ответе API")) ∧
    (∀ d v, dictGet? d "homework_name" = some v → dictGet? d "status" = Option.none →
        parse_status d = .error (.keyError "Отсутствует ключ \"status\" в ответе API")) ∧
    (∀ name status, statusLookup status = Option.none →
        parse_status (hwRecord name status) = .error .valueError) := by
  refine ⟨?_, rfl, ?_, ?_, ?_⟩
  · intro name status verdict h
    simp [parse_status, hwRecord, dictGet?, statusVerdict, pyStr, h, List.find?]
  · intro d h
    simp [parse_status, h]
  · intro d v h1 h2
    simp [parse_status, h1, h2]
  · intro name status h
    simp [parse_status, hwRecord, dictGet?, statusVerdict, h, List.find?]

/-- Witness for C4 at concrete records. -/
theorem c4_witness : parse_status (hwRecord "hw2" "rejected") =
      .ok (statusMessage "hw2" "Работа проверена: у ревьюера есть замечания.") ∧
    parse_status (hwRecord "hw1" "pending") = .error .valueError ∧
    parse_status [] = .error (.keyError "Отсутствует ключ \"homework_name\" в ответе API") ∧
    parse_status [("homework_name", .str "hw1")] =
      .error (.keyError "Отсутствует ключ \"status\" в ответе API") :=
  ⟨c4_parse_status_contract.1 "hw2" "rejected" _ rfl,
   c4_parse_status_contract.2.2.2.2 "hw1" "pending" rfl,
   c4_parse_status_contract.2.2.1 [] rfl,
   c4_parse_status_contract.2.2.2.1 [("homework_name", .str "hw1")] (.str "hw1") rfl rfl⟩

/-- Claim C5: `check_response` on `{}` — or any dict missing the `homeworks`
or `current_date` key — raises `EmptyAPIResponseError` (the non-escalating
`EmptyOrInvalidResponse` condition), and the loop suppresses it completely:
no send attempt, state untouched, no crash. -/
theorem c5_empty_response_suppressed :
    check_response (.dict []) = .error (.emptyAPIResponseError "Ключей нет в списке") ∧
    (∀ d, ((dictGet? d "homeworks").isNone || (dictGet? d "current_date").isNone) = true →
        check_response (.dict d) = .error (.emptyAPIResponseError "Ключей нет в списке")) ∧
    (∀ st env, env.fetch = .httpResponse 200 (.ok (.dict [])) →
        runCycle st env =
          { state := st, attempts := [], sent := [], crashed := Option.none }) := by
  refine ⟨rfl, ?_, ?_⟩
  · intro d h
    simp [check_response, h]
  · intro st env hf
    simp [runCycle, get_api_answer, hf, check_response, dictGet?, handleError,
          PyError.isNotForSending]

/-- Witness for C5 at concrete inputs. -/
theorem c5_witness :
    check_response (.dict [("current_date", .int 0)]) =
      .error (.emptyAPIResponseError "Ключей нет в списке") ∧
    runCycle (initialState 100)
        { now := 5, fetch := .httpResponse 200 (.ok (.dict [])), delivery := Option.none } =
      { state := initialState 100, attempts := [], sent := [], crashed := Option.none } :=
  ⟨c5_empty_response_suppressed.2.1 [("current_date", .int 0)] rfl,
   c5_empty_response_suppressed.2.2 (initialState 100)
     { now := 5, fetch := .httpResponse 200 (.ok (.dict [])), delivery := Option.none } rfl⟩

/-- Counterexample to claim C6: a response whose `homeworks` value is not a
sequence IS surfaced to the user channel — the `KeyError` raised by
`check_response` is not a `NotForSendingError`, so the generic handler sends
the bot-error message. -/
theorem c6_counterexample :
    (runCycle (initialState 100)
        { now := 5, fetch := .httpResponse 200 (.ok badTypeResponse),
          delivery := Option.none }).sent
      = ["Ошибка у бота \x27Тип homeworks - не список\x27"] := rfl

/-- Claim C6 as amended: a present-but-non-sequence `homeworks` value makes
`check_response` raise `KeyError`; the loop treats it as a reportable error —
sent to the user channel when distinct from the last report — and the
timestamp is not advanced. -/
theorem c6_wrongtype_escalated (st : BotState) (env : CycleEnv)
    (d : List (String × PyVal)) (hv cv : PyVal)
    (h1 : dictGet? d "homeworks" = some hv) (h2 : dictGet? d "current_date" = some cv)
    (h3 : isListVal hv = false) (hf : env.fetch = .httpResponse 200 (.ok (.dict d))) :
    check_response (.dict d) = .error (.keyError "Тип homeworks - не список") ∧
    (runCycle st env).state.timestamp = st.timestamp ∧
    (env.delivery = Option.none →
      reportEq { st.current with output := "Ошибка у бота \x27Тип homeworks - не список\x27" }
          st.prev = false →
      (runCycle st env).sent = ["Ошибка у бота \x27Тип homeworks - не список\x27"]) := by
  have hcr : check_response (.dict d) = .error (.keyError "Тип homeworks - не список") := by
    cases hv <;> simp_all [check_response, isListVal]
  refine ⟨hcr, runCycle_timestamp st env, ?_⟩
  intro hd hne
  simp [runCycle, get_api_answer, hf, hcr, handleError, PyError.isNotForSending,
        PyError.errStr, hne, send_message, hd]

/-- Witness for C6 (amended) at the concrete bad-type response. -/
theorem c6_witness :
    check_response badTypeResponse = .error (.keyError "Тип homeworks - не список") ∧
    (runCycle (initialState 100)
        { now := 5, fetch := .httpResponse 200 (.ok badTypeResponse),
          delivery := Option.none }).state.timestamp = 100 ∧
    (runCycle (initialState 100)
        { now := 5, fetch := .httpResponse 200 (.ok badTypeResponse),
          delivery := Option.none }).sent
      = ["Ошибка у бота \x27Тип homeworks - не список\x27"] :=
  ⟨(c6_wrongtype_escalated (initialState 100)
      { now := 5, fetch := .httpResponse 200 (.ok badTypeResponse), delivery := Option.none }
      [("homeworks", .int 1), ("current_date", .int 2)] (.int 1) (.int 2)
      rfl rfl rfl rfl).1,
   (c6_wrongtype_escalated (initialState 100)
      { now := 5, fetch := .httpResponse 200 (.ok badTypeResponse), delivery := Option.none }
      [("homeworks", .int 1), ("current_date", .int 2)] (.int 1) (.int 2)
      rfl rfl rfl rfl).2.1,
   (c6_wrongtype_escalated (initialState 100)
      { now := 5, fetch := .httpResponse 200 (.ok badTypeResponse), delivery := Option.none }
      [("homeworks", .int 1), ("current_date", .int 2)] (.int 1) (.int 2)
      rfl rfl rfl rfl).2.2 rfl (by decide)⟩

/-- Claim C7: `check_tokens` is false exactly when one of the three secrets
is falsy, and in that case `main` exits with the fatal message before the
loop: zero fetches, zero send attempts, for every possible run. -/
theorem c7_startup_guard :
    (∀ p t c, check_tokens p t c = false ↔
        (truthy p = false ∨ truthy t = false ∨ truthy c = false)) ∧
    (∀ p t c s envs, check_tokens p t c = false →
        mainRun p t c s envs = .exited "Отсутствуют переменные окружения!" ∧
        mainFetches (mainRun p t c s envs) = 0 ∧
        mainAttempts (mainRun p t c s envs) = []) := by
  constructor
  · intro p t c
    cases hp : truthy p <;> cases ht : truthy t <;> cases hc : truthy c <;>
      simp [check_tokens, hp, ht, hc]
  · intro p t c s envs h
    simp [mainRun, h, mainFetches, mainAttempts]

/-- Witness for C7: an empty API token aborts the run with no fetch. -/
theorem c7_witness :
    mainRun (some "") (some "tok") (some "chat") 0
        [{ now := 5, fetch := .transportError "x", delivery := Option.none }]
      = .exited "Отсутствуют переменные окружения!" ∧
    mainFetches (mainRun (some "") (some "tok") (some "chat") 0
        [{ now := 5, fetch := .transportError "x", delivery := Option.none }]) = 0 :=
  ⟨(c7_startup_guard.2 (some "") (some "tok") (some "chat") 0
      [{ now := 5, fetch := .transportError "x", delivery := Option.none }] (by decide)).1,
   (c7_startup_guard.2 (some "") (some "tok") (some "chat") 0
      [{ now := 5, fetch := .transportError "x", delivery := Option.none }] (by decide)).2.1⟩

/-- Counterexample to claim C8: after a failed delivery the stored pair is
indeed unchanged and only one attempt was made, but `lastTimestamp` is NOT
advanced — it stays at the start value 100 although the server reported
`current_date = 999`. -/
theorem c8_counterexample :
    (runCycle (initialState 100) (goodEnv "hw1" "approved" 999 7 (some "down"))).state.prev
      = initialReport ∧
    (runCycle (initialState 100) (goodEnv "hw1" "approved" 999 7 (some "down"))).attempts.length
      = 1 ∧
    (runCycle (initialState 100) (goodEnv "hw1" "approved" 999 7 (some "down"))).sent = [] ∧
    (runCycle (initialState 100) (goodEnv "hw1" "approved" 999 7 (some "down"))).crashed
      = Option.none ∧
    (runCycle (initialState 100) (goodEnv "hw1" "approved" 999 7 (some "down"))).state.timestamp
      = 100 ∧
    (100 : Int) ≠ 999 := by
  refine ⟨rfl, rfl, rfl, rfl, rfl, by decide⟩

/-- Claim C8 as amended: the last-notified pair is committed only after a
send that succeeds; on a delivery failure the stored pair is unchanged,
exactly one send attempt happens in the cycle, the loop survives — and the
timestamp is left unchanged (the code never advances it). -/
theorem c8_commit_only_after_success (st : BotState) (name status verdict : String)
    (d now : Int) (err : String)
    (h : statusLookup status = some verdict)
    (hne : reportEq (goodReport name verdict) st.prev = false) :
    runCycle st (goodEnv name status d now (some err)) =
      { state := { st with current := goodReport name verdict },
        attempts := [statusMessage name verdict], sent := [], crashed := Option.none } ∧
    runCycle st (goodEnv name status d now Option.none) =
      { state := { st with
                     current := goodReport name verdict
                     prev := goodReport name verdict },
        attempts := [statusMessage name verdict], sent := [statusMessage name verdict],
        crashed := Option.none } := by
  constructor
  · rw [runCycle_goodEnv st name status verdict d now (some err) h]
    rw [notifyPhase_new_failed st (goodReport name verdict)
          (goodEnv name status d now (some err)) err hne rfl]
    rfl
  · exact runCycle_first st name status verdict d now h hne

/-- Witness for C8 (amended): concrete failed delivery leaves the stored
pair at the sentinel and delivers nothing. -/
theorem c8_witness :
    runCycle (initialState 100) (goodEnv "hw1" "approved" 999 7 (some "down")) =
      { state := { initialState 100 with
                     current := goodReport "hw1"
                       "Работа проверена: ревьюеру всё понравилось. Ура!" },
        attempts := [statusMessage "hw1" "Работа проверена: ревьюеру всё понравилось. Ура!"],
        sent := [], crashed := Option.none } :=
  (c8_commit_only_after_success (initialState 100) "hw1" "approved"
      "Работа проверена: ревьюеру всё понравилось. Ура!" 999 7 "down" rfl (by decide)).1

/-- Claim C9: `get_api_answer` sends `from_date = t` exactly for every
non-zero timestamp, and silently substitutes the wall clock for a falsy
argument (`None` or `0`). -/
theorem c9_from_date_param :
    (∀ (t now : Int) (o : FetchOutcome), t ≠ 0 → (get_api_answer (some t) now o).1 = t) ∧
    (∀ (now : Int) (o : FetchOutcome),
        (get_api_answer Option.none now o).1 = now ∧
        (get_api_answer (some 0) now o).1 = now) := by
  constructor
  · intro t now o ht
    simp [get_api_answer, fromDate, ht]
  · intro now o
    exact ⟨by simp [get_api_answer, fromDate], by simp [get_api_answer, fromDate]⟩

/-- Witness for C9 at a concrete non-zero timestamp. -/
theorem c9_witness :
    (get_api_answer (some 42) 7 (.transportError "x")).1 = 42 :=
  c9_from_date_param.1 42 7 (.transportError "x") (by decide)

/-- Claim C10: whatever the HTTP outcome, `get_api_answer` either succeeds
or fails with `ConnectionError`; no other exception — in particular not the
internal `WrongAPIResponseCodeError` — is observable by the caller. -/
theorem c10_only_connection_error_escapes (t : Option Int) (now : Int) (o : FetchOutcome) :
    escapesAsConnection (get_api_answer t now o).2 = true := by
  cases o with
  | transportError m => simp [get_api_answer, escapesAsConnection]
  | httpResponse code body =>
    by_cases h : code = 200
    · cases body <;> simp [get_api_answer, escapesAsConnection, h]
    · simp [get_api_answer, escapesAsConnection, h]
